import Mathlib

/-!
Verification development for the `josim_tools` circuit verifier
(`src/josim_tools/verify.py`).

The verifier samples a simulated circuit trace at the time points of a
specification file, normalises both the samples and the expected
phase-flip values against the calibration point (index 0), and compares
the per-signal absolute differences against a threshold, reporting the
first point of divergence.

Modelling conventions of the shallow embedding:
* Python floats are modelled by `ℚ` (exact arithmetic; `ℝ` would make the
  definitions noncomputable).  The float constant `2 * np.pi` is
  abstracted as an explicit parameter `twoPi : ℚ`; no verified property
  depends on its value.
* NumPy arrays are `List ℚ`; the element-wise array operations
  (broadcasted subtraction, division, `np.abs`, `>`, `np.any`,
  `np.where`) are the `vec…`/`np…` functions below.
* The external collaborators (the `CircuitSimulator` built in
  `Verifier.__init__` together with `CircuitSimulatorOutput.sample`, and
  the `SpecFile` parser) are out of scope per the spec; they enter the
  model only through their interfaces: a sampling function
  `Params → ℚ → Vec` and a record of the spec file's `names()`, `time()`
  and `data()` outputs.
* Python exceptions raised by collaborators are modelled in a second,
  `Except`-valued embedding (`VerifierE`), which refines the pure one.
-/

/-- Vectors of per-signal numeric values (NumPy 1-d arrays in the source). -/
abbrev Vec := List ℚ

/-- A parameter assignment, `Dict[str, float]` in the source. -/
abbrev Params := List (String × ℚ)

/-- The sampling function obtained from the simulation collaborator:
`CircuitSimulatorOutput.sample`, giving one value per tracked signal. -/
abbrev SampleFn := ℚ → Vec

/-- `VerifierResult` from `verify.py` lines 13–23: the result of a
verification with optional additional failure information. -/
structure VerifierResult where
  succeed : Bool
  failure_time : Option ℚ := none
  failure_point : Option (List ℕ) := none
  deriving Repr, DecidableEq

/-- `VerifierResult.__bool__` (`verify.py` lines 21–23): transforms the
value into a boolean. -/
def VerifierResult.toBool (r : VerifierResult) : Bool :=
  r.succeed

/-- The interface of the `SpecFile` collaborator (`formats.py`, external):
the ordered signal names, the sample time points, and the expected
phase-flip vector at each time point. -/
structure SpecFile where
  names : List String
  time : List ℚ
  data : List Vec
  deriving Repr, DecidableEq

/-- Element-wise subtraction of equal-length NumPy arrays (`a - b`). -/
def vecSub (a b : Vec) : Vec :=
  List.zipWith (fun x y => x - y) a b

/-- Broadcasted division of a NumPy array by a scalar (`a / c`). -/
def vecDiv (a : Vec) (c : ℚ) : Vec :=
  a.map (fun x => x / c)

/-- Element-wise absolute value (`np.abs`). -/
def vecAbs (a : Vec) : Vec :=
  a.map (fun x => |x|)

/-- Element-wise comparison against a scalar (`a > t`). -/
def vecGt (a : Vec) (t : ℚ) : List Bool :=
  a.map (fun x => decide (t < x))

/-- `np.any` on a boolean array. -/
def npAny (bs : List Bool) : Bool :=
  bs.any id

/-- `list(np.where(bs)[0])`: the indices at which `bs` holds, in
increasing order. -/
def npWhere (bs : List Bool) : List ℕ :=
  (List.range bs.length).filter (fun i => bs.getD i false)

/-- The per-signal quantity `difference` computed in the body of the
verification loop (`verify.py` lines 85–89):
`np.abs((samples - calibration_samples) / (2*np.pi)
        - (phase_flips[index] - calibration_phase_flips))`. -/
def pointDifference (twoPi : ℚ)
    (samples calibration_samples calibration_phase_flips expected : Vec) :
    Vec :=
  let phase_flips_sampled := vecDiv (vecSub samples calibration_samples) twoPi
  let phase_flips_compare := vecSub expected calibration_phase_flips
  vecAbs (vecSub phase_flips_sampled phase_flips_compare)

/-- The boolean array `comparisons = difference > self.threshold_`
(`verify.py` line 90) at one checked time point. -/
def checkPoint (twoPi threshold : ℚ)
    (samples calibration_samples calibration_phase_flips expected : Vec) :
    List Bool :=
  vecGt (pointDifference twoPi samples calibration_samples
    calibration_phase_flips expected) threshold

/-- The `for index in range(1, num_steps)` loop of `Verifier.verify`
(`verify.py` lines 80–95), recursing over the list of
`(time_steps[index], phase_flips[index])` pairs for `index ≥ 1`:
sample at the time point, compare against the threshold, and return the
first failure, or success once the list is exhausted. -/
def verifyLoop (twoPi threshold : ℚ) (sample : SampleFn)
    (calibration_samples calibration_phase_flips : Vec) :
    List (ℚ × Vec) → VerifierResult
  | [] => { succeed := true }
  | (time_step, expected) :: rest =>
    if npAny (checkPoint twoPi threshold (sample time_step)
        calibration_samples calibration_phase_flips expected) = true then
      { succeed := false
        failure_time := some time_step
        failure_point := some (npWhere (checkPoint twoPi threshold
          (sample time_step) calibration_samples calibration_phase_flips
          expected)) }
    else
      verifyLoop twoPi threshold sample calibration_samples
        calibration_phase_flips rest

/-- The `Verifier` state after `__init__`: `simulate_` is the composition
of `Verifier._simulate` with `CircuitSimulatorOutput.sample` (parameter
assignment ↦ sampling function), `spec_file_` the spec-file collaborator's
outputs, and `threshold_` the configured threshold. -/
structure Verifier where
  simulate_ : Params → SampleFn
  spec_file_ : SpecFile
  threshold_ : ℚ

/-- `Verifier.verify` (`verify.py` lines 61–97).  Defaults the parameter
mapping to empty, simulates, reads `time()` and `data()` from the spec
file, computes the calibration vectors at index 0, and runs the
comparison loop over indices `1 .. num_steps - 1`.  The data-model
invariant guarantees the sequence is nonempty, so the `headD` defaults
are never exercised on well-formed input. -/
def Verifier.verify (twoPi : ℚ) (v : Verifier) (params : Option Params) :
    VerifierResult :=
  let sample := v.simulate_ (params.getD [])
  let time_steps := v.spec_file_.time
  let phase_flips := v.spec_file_.data
  let calibration_phase_flips := phase_flips.headD []
  let calibration_samples := sample (time_steps.headD 0)
  verifyLoop twoPi v.threshold_ sample calibration_samples
    calibration_phase_flips ((time_steps.zip phase_flips).drop 1)

/-- The `difference` array that `Verifier.verify` computes at loop index
`i`: samples at `time()[i]`, calibrates against the sample at `time()[0]`
and the expected vector `data()[0]`. -/
def Verifier.differenceAt (v : Verifier) (twoPi : ℚ)
    (params : Option Params) (i : ℕ) : Vec :=
  pointDifference twoPi
    (v.simulate_ (params.getD []) (v.spec_file_.time.getD i 0))
    (v.simulate_ (params.getD []) (v.spec_file_.time.headD 0))
    (v.spec_file_.data.headD [])
    (v.spec_file_.data.getD i [])

/-- The `comparisons` array that `Verifier.verify` computes at loop
index `i`. -/
def Verifier.compAt (v : Verifier) (twoPi : ℚ) (params : Option Params)
    (i : ℕ) : List Bool :=
  vecGt (v.differenceAt twoPi params i) v.threshold_

/-- The fields of `VerifyConfiguration` consumed by `Verifier.__init__`
(`configuration.py`, external). -/
structure VerifyConfiguration where
  method : String
  circuit_path : String
  file_path : String
  threshold : ℚ
  wrspice_compatibility : Bool

/-- `Verifier.__init__` (`verify.py` lines 34–47), with the collaborator
constructors passed explicitly: `mkSimulator` stands for building the
`CircuitSimulator` (already composed with trace selection and
`_simulate`/`sample`), `mkSpec` for parsing the `SpecFile`.  The Python
`assert configuration.method == "spec_file"` is modelled as an
`Except`-failure raised before either collaborator is consulted. -/
def Verifier.init
    (mkSimulator : String → Bool → (Params → SampleFn))
    (mkSpec : String → SpecFile)
    (configuration : VerifyConfiguration) : Except String Verifier :=
  if configuration.method = "spec_file" then
    .ok
      { simulate_ := mkSimulator configuration.circuit_path
          configuration.wrspice_compatibility
        spec_file_ := mkSpec configuration.file_path
        threshold_ := configuration.threshold }
  else
    .error "AssertionError"

/-- The `Verifier` state with the exception behaviour of the
collaborators made explicit: obtaining the sampling function
(`_simulate`) and each individual sample may fail with an exception of
type `ε`. -/
structure VerifierE (ε : Type) where
  simulate_ : Params → Except ε (ℚ → Except ε Vec)
  spec_file_ : SpecFile
  threshold_ : ℚ

/-- The verification loop with a fallible sampling function: a sampling
exception aborts the loop and propagates unmodified. -/
def verifyLoopE {ε : Type} (twoPi threshold : ℚ)
    (sample : ℚ → Except ε Vec)
    (calibration_samples calibration_phase_flips : Vec) :
    List (ℚ × Vec) → Except ε VerifierResult
  | [] => .ok { succeed := true }
  | (time_step, expected) :: rest =>
    match sample time_step with
    | .error e => .error e
    | .ok samples =>
      if npAny (checkPoint twoPi threshold samples calibration_samples
          calibration_phase_flips expected) = true then
        .ok { succeed := false
              failure_time := some time_step
              failure_point := some (npWhere (checkPoint twoPi threshold
                samples calibration_samples calibration_phase_flips
                expected)) }
      else
        verifyLoopE twoPi threshold sample calibration_samples
          calibration_phase_flips rest

/-- `Verifier.verify` with collaborator exceptions explicit: any failure
of `_simulate` or of a `sample` call propagates unmodified as
`.error`. -/
def VerifierE.verify {ε : Type} (twoPi : ℚ) (v : VerifierE ε)
    (params : Option Params) : Except ε VerifierResult :=
  match v.simulate_ (params.getD []) with
  | .error e => .error e
  | .ok sample =>
    match sample (v.spec_file_.time.headD 0) with
    | .error e => .error e
    | .ok calibration_samples =>
      verifyLoopE twoPi v.threshold_ sample calibration_samples
        (v.spec_file_.data.headD [])
        ((v.spec_file_.time.zip v.spec_file_.data).drop 1)

/-! ### Concrete instances used for closed instantiations -/

/-- A concrete sampling collaborator: every tracked signal's trace is the
identity function of time (one signal). -/
def sampleTrace : Params → SampleFn := fun _ t => [t]

/-- A concrete spec file whose expectations the `sampleTrace` trace meets
exactly (with `twoPi = 1`). -/
def specPass : SpecFile :=
  { names := ["a"], time := [0, 1, 2], data := [[0], [1], [2]] }

/-- A concrete spec file whose expectation diverges (difference 3) from
the `sampleTrace` trace at index 2. -/
def specFail : SpecFile :=
  { names := ["a"], time := [0, 1, 2], data := [[0], [1], [5]] }

/-- A concrete spec file holding only the calibration point. -/
def specOne : SpecFile :=
  { names := ["a"], time := [0], data := [[0]] }

def vPass : Verifier :=
  { simulate_ := sampleTrace, spec_file_ := specPass, threshold_ := 1 }

/-- Same collaborator outputs as `vPass`, written differently. -/
def vPassTwo : Verifier :=
  { simulate_ := fun _ t => [t], spec_file_ := specPass, threshold_ := 1 }

def vFail : Verifier :=
  { simulate_ := sampleTrace, spec_file_ := specFail, threshold_ := 1 }

def vOne : Verifier :=
  { simulate_ := sampleTrace, spec_file_ := specOne, threshold_ := 1 }

/-- A fallible verifier whose collaborator calls all succeed. -/
def vEOk : VerifierE Unit :=
  { simulate_ := fun _ => .ok (fun t => .ok [t])
    spec_file_ := specPass
    threshold_ := 1 }

/-- A fallible verifier whose `_simulate` call raises. -/
def vEErr : VerifierE Unit :=
  { simulate_ := fun _ => .error ()
    spec_file_ := specPass
    threshold_ := 1 }

def mkSimulatorC : String → Bool → (Params → SampleFn) := fun _ _ => sampleTrace

def mkSpecC : String → SpecFile := fun _ => specPass

def cfgSpecFile : VerifyConfiguration :=
  { method := "spec_file", circuit_path := "circuit.cir"
    file_path := "spec.txt", threshold := 1, wrspice_compatibility := false }

def cfgOther : VerifyConfiguration :=
  { method := "latch", circuit_path := "circuit.cir"
    file_path := "spec.txt", threshold := 1, wrspice_compatibility := false }

/-! ### Helper lemmas about the array primitives -/

theorem npAny_eq_true_iff (bs : List Bool) :
    npAny bs = true ↔ ∃ b ∈ bs, b = true := by
  simp [npAny, List.any_eq_true]

theorem npAny_vecGt_false_iff (d : Vec) (t : ℚ) :
    npAny (vecGt d t) = false ↔ ∀ x ∈ d, x ≤ t := by
  simp [npAny, vecGt, List.any_eq_true, not_lt,
    Bool.eq_false_iff, Ne, ← Bool.not_eq_true (List.any _ _)]

theorem npAny_vecGt_true_iff (d : Vec) (t : ℚ) :
    npAny (vecGt d t) = true ↔ ∃ x ∈ d, t < x := by
  rw [← not_iff_not]
  simp only [Bool.not_eq_true, npAny_vecGt_false_iff, not_exists, not_and, not_lt]

theorem mem_npWhere (bs : List Bool) (k : ℕ) :
    k ∈ npWhere bs ↔ k < bs.length ∧ bs.getD k false = true := by
  simp [npWhere, List.mem_filter, List.mem_range]

theorem npWhere_pairwise (bs : List Bool) :
    (npWhere bs).Pairwise (· < ·) :=
  List.Pairwise.filter _ (List.pairwise_lt_range bs.length)

theorem npWhere_ne_nil_of_npAny (bs : List Bool) (h : npAny bs = true) :
    npWhere bs ≠ [] := by
  obtain ⟨b, hb, hbt⟩ := (npAny_eq_true_iff bs).mp h
  obtain ⟨n, hn, hget⟩ := List.mem_iff_getElem.mp hb
  have : n ∈ npWhere bs := by
    rw [mem_npWhere]
    exact ⟨hn, by rw [List.getD_eq_getElem _ _ hn, hget, hbt]⟩
  intro hnil
  rw [hnil] at this
  exact absurd this (List.not_mem_nil n)

/-! ### Helper lemmas about the verification loop -/

theorem verifyLoop_all_pass (twoPi threshold : ℚ) (sample : SampleFn)
    (cS cE : Vec) (l : List (ℚ × Vec))
    (h : ∀ p ∈ l, npAny (checkPoint twoPi threshold (sample p.1) cS cE p.2) = false) :
    verifyLoop twoPi threshold sample cS cE l = { succeed := true } := by
  induction l with
  | nil => rfl
  | cons p rest ih =>
    obtain ⟨t, e⟩ := p
    have hp := h (t, e) (List.mem_cons_self _ _)
    simp only [verifyLoop, hp, Bool.false_eq_true, if_false]
    exact ih fun q hq => h q (List.mem_cons_of_mem _ hq)

theorem verifyLoop_first_fail (twoPi threshold : ℚ) (sample : SampleFn)
    (cS cE : Vec) (l₁ l₂ : List (ℚ × Vec)) (t : ℚ) (e : Vec)
    (h₁ : ∀ p ∈ l₁, npAny (checkPoint twoPi threshold (sample p.1) cS cE p.2) = false)
    (h₂ : npAny (checkPoint twoPi threshold (sample t) cS cE e) = true) :
    verifyLoop twoPi threshold sample cS cE (l₁ ++ (t, e) :: l₂) =
      { succeed := false
        failure_time := some t
        failure_point := some (npWhere (checkPoint twoPi threshold (sample t) cS cE e)) } := by
  induction l₁ with
  | nil => simp only [List.nil_append, verifyLoop, h₂, if_true]
  | cons p rest ih =>
    obtain ⟨pt, pe⟩ := p
    have hp := h₁ (pt, pe) (List.mem_cons_self _ _)
    simp only [List.cons_append, verifyLoop, hp, Bool.false_eq_true, if_false]
    exact ih fun q hq => h₁ q (List.mem_cons_of_mem _ hq)

theorem verifySeq_getElem (ts : List ℚ) (ds : List Vec) (k : ℕ)
    (hk : k < ((ts.zip ds).drop 1).length) :
    ((ts.zip ds).drop 1)[k] = (ts.getD (k + 1) 0, ds.getD (k + 1) []) := by
  have h1 : ((ts.zip ds).drop 1).length = (ts.zip ds).length - 1 :=
    List.length_drop 1 _
  have h2 : (ts.zip ds).length = min ts.length ds.length :=
    List.length_zip ts ds
  have hzip : 1 + k < (ts.zip ds).length := by omega
  have ht : k + 1 < ts.length := by omega
  have hd : k + 1 < ds.length := by omega
  rw [List.getElem_drop, List.getElem_zip,
    List.getD_eq_getElem _ _ ht, List.getD_eq_getElem _ _ hd]
  simp only [Nat.add_comm 1 k]

/-! ### Bridging `Verifier.verify` to the loop and the per-index arrays -/

theorem Verifier.verify_eq_loop (twoPi : ℚ) (v : Verifier)
    (params : Option Params) :
    Verifier.verify twoPi v params =
      verifyLoop twoPi v.threshold_ (v.simulate_ (params.getD []))
        (v.simulate_ (params.getD []) (v.spec_file_.time.headD 0))
        (v.spec_file_.data.headD [])
        ((v.spec_file_.time.zip v.spec_file_.data).drop 1) := rfl

theorem length_vecGt (d : Vec) (t : ℚ) : (vecGt d t).length = d.length := by
  simp [vecGt]

theorem mem_npWhere_vecGt (d : Vec) (t : ℚ) (s : ℕ) :
    s ∈ npWhere (vecGt d t) ↔ s < d.length ∧ t < d.getD s 0 := by
  rw [mem_npWhere, length_vecGt]
  refine and_congr_right fun hs => ?_
  rw [List.getD_eq_getElem _ _ (by simpa [length_vecGt] using hs),
    List.getD_eq_getElem _ _ hs]
  simp [vecGt]

/-- C1: if some index `i ≥ 1` of the expectation sequence has a per-signal
difference strictly above the threshold, and `i` is the smallest such
index, then `verify` returns `succeed = false`, `failure_time = time()[i]`
exactly, and `failure_point` equal to exactly the indices whose difference
exceeds the threshold at index `i`, listed in increasing signal order —
never indices that only diverge at later indices. -/
theorem verify_first_failure (twoPi : ℚ) (v : Verifier)
    (params : Option Params) (i : ℕ) (hi1 : 1 ≤ i)
    (hin : i < v.spec_file_.time.length)
    (hlen : v.spec_file_.data.length = v.spec_file_.time.length)
    (hfail : ∃ x ∈ v.differenceAt twoPi params i, v.threshold_ < x)
    (hmin : ∀ j, 1 ≤ j → j < i →
      ∀ x ∈ v.differenceAt twoPi params j, x ≤ v.threshold_) :
    Verifier.verify twoPi v params =
      { succeed := false
        failure_time := some (v.spec_file_.time.getD i 0)
        failure_point := some (npWhere (v.compAt twoPi params i)) } ∧
    (∀ s, s ∈ npWhere (v.compAt twoPi params i) ↔
      s < (v.differenceAt twoPi params i).length ∧
        v.threshold_ < (v.differenceAt twoPi params i).getD s 0) ∧
    (npWhere (v.compAt twoPi params i)).Pairwise (· < ·) := by
  refine ⟨?_, fun s => mem_npWhere_vecGt (v.differenceAt twoPi params i)
    v.threshold_ s, npWhere_pairwise _⟩
  obtain ⟨k, rfl⟩ : ∃ k, i = k + 1 := ⟨i - 1, by omega⟩
  rw [Verifier.verify_eq_loop]
  set L := (v.spec_file_.time.zip v.spec_file_.data).drop 1 with hLdef
  have h1 : L.length = (v.spec_file_.time.zip v.spec_file_.data).length - 1 := by
    rw [hLdef, List.length_drop]
  have h2 : (v.spec_file_.time.zip v.spec_file_.data).length =
      min v.spec_file_.time.length v.spec_file_.data.length :=
    List.length_zip _ _
  have hkL : k < L.length := by omega
  have hLk : L[k] = (v.spec_file_.time.getD (k + 1) 0,
      v.spec_file_.data.getD (k + 1) []) := verifySeq_getElem _ _ k hkL
  have hsplit : L = L.take k ++
      (v.spec_file_.time.getD (k + 1) 0, v.spec_file_.data.getD (k + 1) []) ::
      L.drop (k + 1) := by
    conv_lhs => rw [← List.take_append_drop k L,
      List.drop_eq_getElem_cons hkL]
    rw [hLk]
  have hpass : ∀ p ∈ L.take k,
      npAny (checkPoint twoPi v.threshold_
        (v.simulate_ (params.getD []) p.1)
        (v.simulate_ (params.getD []) (v.spec_file_.time.headD 0))
        (v.spec_file_.data.headD []) p.2) = false := by
    intro p hp
    obtain ⟨j, hj, hpj⟩ := List.mem_iff_getElem.mp hp
    have hjk : j < k := by
      have := List.length_take k L
      omega
    have hjL : j < L.length := by omega
    rw [List.getElem_take, verifySeq_getElem _ _ j hjL] at hpj
    subst hpj
    show npAny (v.compAt twoPi params (j + 1)) = false
    rw [Verifier.compAt, npAny_vecGt_false_iff]
    exact hmin (j + 1) (by omega) (by omega)
  have hfire : npAny (checkPoint twoPi v.threshold_
      (v.simulate_ (params.getD []) (v.spec_file_.time.getD (k + 1) 0))
      (v.simulate_ (params.getD []) (v.spec_file_.time.headD 0))
      (v.spec_file_.data.headD [])
      (v.spec_file_.data.getD (k + 1) [])) = true := by
    show npAny (v.compAt twoPi params (k + 1)) = true
    rw [Verifier.compAt, npAny_vecGt_true_iff]
    exact hfail
  rw [hsplit]
  exact verifyLoop_first_fail twoPi v.threshold_ _ _ _ _ _ _ _ hpass hfire

/-- C2: if at every index `i ≥ 1` every per-signal absolute difference is
at most the threshold (equality included: the comparison is a strict `>`),
then `verify` returns `succeed = true`. -/
theorem verify_succeeds_within_threshold (twoPi : ℚ) (v : Verifier)
    (params : Option Params)
    (hlen : v.spec_file_.data.length = v.spec_file_.time.length)
    (hpass : ∀ i, 1 ≤ i → i < v.spec_file_.time.length →
      ∀ x ∈ v.differenceAt twoPi params i, x ≤ v.threshold_) :
    (Verifier.verify twoPi v params).succeed = true := by
  rw [Verifier.verify_eq_loop]
  set L := (v.spec_file_.time.zip v.spec_file_.data).drop 1 with hLdef
  have h1 : L.length = (v.spec_file_.time.zip v.spec_file_.data).length - 1 := by
    rw [hLdef, List.length_drop]
  have h2 : (v.spec_file_.time.zip v.spec_file_.data).length =
      min v.spec_file_.time.length v.spec_file_.data.length :=
    List.length_zip _ _
  have hall : ∀ p ∈ L,
      npAny (checkPoint twoPi v.threshold_
        (v.simulate_ (params.getD []) p.1)
        (v.simulate_ (params.getD []) (v.spec_file_.time.headD 0))
        (v.spec_file_.data.headD []) p.2) = false := by
    intro p hp
    obtain ⟨j, hj, hpj⟩ := List.mem_iff_getElem.mp hp
    rw [verifySeq_getElem _ _ j hj] at hpj
    subst hpj
    show npAny (v.compAt twoPi params (j + 1)) = false
    rw [Verifier.compAt, npAny_vecGt_false_iff]
    exact hpass (j + 1) (by omega) (by omega)
  rw [verifyLoop_all_pass twoPi v.threshold_ _ _ _ L hall]

/-- C4: if the expectation sequence has length exactly 1 (only the
calibration point), `verify` returns `succeed = true` regardless of the
trace values and the threshold. -/
theorem verify_length_one (twoPi : ℚ) (v : Verifier) (params : Option Params)
    (h1 : v.spec_file_.time.length = 1)
    (h2 : v.spec_file_.data.length = 1) :
    (Verifier.verify twoPi v params).succeed = true := by
  rw [Verifier.verify_eq_loop]
  have hnil : (v.spec_file_.time.zip v.spec_file_.data).drop 1 = [] :=
    List.drop_eq_nil_of_le (by rw [List.length_zip]; omega)
  rw [hnil]
  rfl

/-! ### The compared quantity (C3) -/

theorem headD_eq_getD_zero {α : Type} (l : List α) (d : α) :
    l.headD d = l.getD 0 d := by
  cases l <;> rfl

theorem length_pointDifference (twoPi : ℚ) (s cS cE e : Vec) :
    (pointDifference twoPi s cS cE e).length =
      min (min s.length cS.length) (min e.length cE.length) := by
  simp [pointDifference, vecAbs, vecSub, vecDiv, List.length_zipWith]

theorem getElem_pointDifference (twoPi : ℚ) (s cS cE e : Vec) (j : ℕ)
    (h : j < (pointDifference twoPi s cS cE e).length)
    (hs : j < s.length) (hcs : j < cS.length) (he : j < e.length)
    (hce : j < cE.length) :
    (pointDifference twoPi s cS cE e)[j] =
      |(s[j] - cS[j]) / twoPi - (e[j] - cE[j])| := by
  simp [pointDifference, vecAbs, vecSub, vecDiv, List.getElem_zipWith,
    List.getElem_map]

/-- C3: at every checked index `i`, the per-signal quantity compared
against the threshold is
`|((sample_i − calibration_sample) / twoPi) − (expected_i − calibration_expectation)|`,
where the calibration sample is the trace sampled at `time()[0]` and the
calibration expectation is `data()[0]`, both taken from the same `verify`
call; and the comparison performed at signal `j` is the strict test
`threshold < difference`. -/
theorem verify_difference_formula (twoPi : ℚ) (v : Verifier)
    (params : Option Params) (i j : ℕ)
    (hs : j < (v.simulate_ (params.getD []) (v.spec_file_.time.getD i 0)).length)
    (hcs : j < (v.simulate_ (params.getD []) (v.spec_file_.time.getD 0 0)).length)
    (he : j < (v.spec_file_.data.getD i []).length)
    (hce : j < (v.spec_file_.data.getD 0 []).length) :
    (v.differenceAt twoPi params i).getD j 0 =
      |((v.simulate_ (params.getD []) (v.spec_file_.time.getD i 0)).getD j 0 -
          (v.simulate_ (params.getD []) (v.spec_file_.time.getD 0 0)).getD j 0) /
            twoPi -
        ((v.spec_file_.data.getD i []).getD j 0 -
          (v.spec_file_.data.getD 0 []).getD j 0)| ∧
    (v.compAt twoPi params i).getD j false =
      decide (v.threshold_ < (v.differenceAt twoPi params i).getD j 0) := by
  have hdq : v.differenceAt twoPi params i =
      pointDifference twoPi
        (v.simulate_ (params.getD []) (v.spec_file_.time.getD i 0))
        (v.simulate_ (params.getD []) (v.spec_file_.time.getD 0 0))
        (v.spec_file_.data.getD 0 [])
        (v.spec_file_.data.getD i []) := by
    simp only [Verifier.differenceAt, headD_eq_getD_zero]
  have hd : j < (v.differenceAt twoPi params i).length := by
    rw [hdq, length_pointDifference]
    omega
  have hp : j < (pointDifference twoPi
      (v.simulate_ (params.getD []) (v.spec_file_.time.getD i 0))
      (v.simulate_ (params.getD []) (v.spec_file_.time.getD 0 0))
      (v.spec_file_.data.getD 0 [])
      (v.spec_file_.data.getD i [])).length := by
    rw [length_pointDifference]
    omega
  constructor
  · rw [hdq, List.getD_eq_getElem _ _ hp,
      getElem_pointDifference twoPi _ _ _ _ j hp hs hcs he hce,
      List.getD_eq_getElem _ _ hs, List.getD_eq_getElem _ _ hcs,
      List.getD_eq_getElem _ _ he, List.getD_eq_getElem _ _ hce]
  · have hlenc : j < (v.compAt twoPi params i).length := by
      rw [Verifier.compAt, length_vecGt]
      exact hd
    rw [List.getD_eq_getElem _ _ hlenc, List.getD_eq_getElem _ _ hd]
    simp [Verifier.compAt, vecGt]

/-! ### Calibration invariance (C5) -/

theorem vecSub_map_add (a b : Vec) (c : ℚ) :
    vecSub (a.map (fun x => x + c)) (b.map (fun x => x + c)) = vecSub a b := by
  rw [vecSub, vecSub, List.zipWith_map]
  congr 1
  funext x y
  ring

theorem checkPoint_shift (twoPi threshold c : ℚ) (s cS cE e : Vec) :
    checkPoint twoPi threshold (s.map (fun x => x + c))
      (cS.map (fun x => x + c)) (cE.map (fun x => x + c))
      (e.map (fun x => x + c)) =
    checkPoint twoPi threshold s cS cE e := by
  simp only [checkPoint, pointDifference, vecSub_map_add]

theorem verifyLoop_shift (twoPi threshold c : ℚ) (sample : SampleFn)
    (cS cE : Vec) (l : List (ℚ × Vec)) :
    verifyLoop twoPi threshold (fun t => (sample t).map (fun x => x + c))
      (cS.map (fun x => x + c)) (cE.map (fun x => x + c))
      (l.map (Prod.map id (List.map (fun x => x + c)))) =
    verifyLoop twoPi threshold sample cS cE l := by
  induction l with
  | nil => rfl
  | cons p rest ih =>
    obtain ⟨t, e⟩ := p
    simp only [List.map_cons, Prod.map, id_eq, verifyLoop, checkPoint_shift, ih]

theorem headD_map_nil (g : Vec → Vec) (l : List Vec) (h : g [] = []) :
    (l.map g).headD [] = g (l.headD []) := by
  cases l <;> simp [h]

/-- C5: adding the same constant offset `c` to every sampled value (hence
to the calibration sample and the sample at every index) and to every
expected vector (hence to the calibration expectation and the expected
vector at every index) leaves the outcome of `verify` — the succeed flag,
the failure time, and the failure point — unchanged: only deltas relative
to the calibration point enter the comparison. -/
theorem verify_calibration_invariance (twoPi c : ℚ) (v : Verifier)
    (params : Option Params) :
    Verifier.verify twoPi
      { simulate_ := fun ps t => (v.simulate_ ps t).map (fun x => x + c)
        spec_file_ :=
          { names := v.spec_file_.names
            time := v.spec_file_.time
            data := v.spec_file_.data.map (List.map (fun x => x + c)) }
        threshold_ := v.threshold_ } params =
    Verifier.verify twoPi v params := by
  rw [Verifier.verify_eq_loop, Verifier.verify_eq_loop]
  show verifyLoop twoPi v.threshold_
      (fun t => (v.simulate_ (params.getD []) t).map (fun x => x + c))
      ((v.simulate_ (params.getD []) (v.spec_file_.time.headD 0)).map
        (fun x => x + c))
      ((v.spec_file_.data.map (List.map (fun x => x + c))).headD [])
      ((v.spec_file_.time.zip
        (v.spec_file_.data.map (List.map (fun x => x + c)))).drop 1) =
    verifyLoop twoPi v.threshold_ (v.simulate_ (params.getD []))
      (v.simulate_ (params.getD []) (v.spec_file_.time.headD 0))
      (v.spec_file_.data.headD [])
      ((v.spec_file_.time.zip v.spec_file_.data).drop 1)
  rw [headD_map_nil _ _ rfl, List.zip_map_right, ← List.map_drop]
  exact verifyLoop_shift twoPi v.threshold_ c _ _ _ _

/-- C6: `verify` is deterministic — two verifiers with identical
thresholds, identical spec-file outputs, and collaborator sampling
functions that agree on all inputs return identical `VerifierResult`
values on the same parameters. -/
theorem verify_deterministic (twoPi : ℚ) (v₁ v₂ : Verifier)
    (params : Option Params)
    (hsim : ∀ ps t, v₁.simulate_ ps t = v₂.simulate_ ps t)
    (hspec : v₁.spec_file_ = v₂.spec_file_)
    (hth : v₁.threshold_ = v₂.threshold_) :
    Verifier.verify twoPi v₁ params = Verifier.verify twoPi v₂ params := by
  have hs : v₁.simulate_ = v₂.simulate_ :=
    funext fun ps => funext fun t => hsim ps t
  obtain ⟨s₁, f₁, t₁⟩ := v₁
  obtain ⟨s₂, f₂, t₂⟩ := v₂
  cases hs
  cases hspec
  cases hth
  rfl

/-! ### The result invariant (C7) -/

theorem verifyLoop_cases (twoPi threshold : ℚ) (sample : SampleFn)
    (cS cE : Vec) (l : List (ℚ × Vec)) :
    verifyLoop twoPi threshold sample cS cE l = { succeed := true } ∨
    ∃ t e, (t, e) ∈ l ∧
      verifyLoop twoPi threshold sample cS cE l =
        { succeed := false
          failure_time := some t
          failure_point := some (npWhere
            (checkPoint twoPi threshold (sample t) cS cE e)) } ∧
      npAny (checkPoint twoPi threshold (sample t) cS cE e) = true := by
  induction l with
  | nil => left; rfl
  | cons p rest ih =>
    obtain ⟨t, e⟩ := p
    by_cases h : npAny (checkPoint twoPi threshold (sample t) cS cE e) = true
    · right
      exact ⟨t, e, List.mem_cons_self _ _, by simp [verifyLoop, h], h⟩
    · have hloop : verifyLoop twoPi threshold sample cS cE ((t, e) :: rest) =
          verifyLoop twoPi threshold sample cS cE rest := by
        simp [verifyLoop, h]
      rcases ih with hok | ⟨t', e', hm, heq, hany⟩
      · left
        rw [hloop, hok]
      · right
        exact ⟨t', e', List.mem_cons_of_mem _ hm, by rw [hloop, heq], hany⟩

/-- C7: every result returned by `verify` satisfies the invariant: on
success both failure fields are unset; on failure the failure time is a
time point of the expectation sequence and the failure point is a
non-empty list of signal indices. -/
theorem verify_result_invariant (twoPi : ℚ) (v : Verifier)
    (params : Option Params) :
    ((Verifier.verify twoPi v params).succeed = true →
      (Verifier.verify twoPi v params).failure_time = none ∧
      (Verifier.verify twoPi v params).failure_point = none) ∧
    ((Verifier.verify twoPi v params).succeed = false →
      ∃ t pts, (Verifier.verify twoPi v params).failure_time = some t ∧
        t ∈ v.spec_file_.time ∧
        (Verifier.verify twoPi v params).failure_point = some pts ∧
        pts ≠ []) := by
  rw [Verifier.verify_eq_loop]
  rcases verifyLoop_cases twoPi v.threshold_ (v.simulate_ (params.getD []))
      (v.simulate_ (params.getD []) (v.spec_file_.time.headD 0))
      (v.spec_file_.data.headD [])
      ((v.spec_file_.time.zip v.spec_file_.data).drop 1) with
    hok | ⟨t, e, hm, heq, hany⟩
  · rw [hok]
    exact ⟨fun _ => ⟨rfl, rfl⟩, fun h => absurd h (by simp)⟩
  · rw [heq]
    refine ⟨fun h => absurd h (by simp), fun _ => ⟨t, _, rfl, ?_, rfl,
      npWhere_ne_nil_of_npAny _ hany⟩⟩
    exact (List.of_mem_zip (List.mem_of_mem_drop hm)).1

/-- C8: converting a `VerifierResult` to a boolean yields exactly its
`succeed` flag, independent of the failure fields. -/
theorem verifierResult_bool_eq_succeed (r : VerifierResult) :
    r.toBool = r.succeed := rfl

/-! ### Exception propagation (C9) -/

theorem verifyLoopE_error_source {ε : Type} (twoPi threshold : ℚ)
    (sample : ℚ → Except ε Vec) (cS cE : Vec) (l : List (ℚ × Vec)) (e : ε)
    (h : verifyLoopE twoPi threshold sample cS cE l = .error e) :
    ∃ t, sample t = .error e := by
  induction l with
  | nil => simp [verifyLoopE] at h
  | cons p rest ih =>
    obtain ⟨t, ex⟩ := p
    cases hs : sample t with
    | error e' =>
      have h2 : (Except.error e' : Except ε VerifierResult) = .error e := by
        rw [← h]
        simp [verifyLoopE, hs]
      injection h2 with h3
      exact ⟨t, by rw [hs, h3]⟩
    | ok samples =>
      have h2 := h
      simp only [verifyLoopE, hs] at h2
      by_cases hany : npAny (checkPoint twoPi threshold samples cS cE ex) = true
      · rw [if_pos hany] at h2
        simp at h2
      · rw [if_neg hany] at h2
        exact ih h2

theorem verifyLoopE_refines {ε : Type} (twoPi threshold : ℚ)
    (sf : ℚ → Except ε Vec) (g : SampleFn) (hg : ∀ t, sf t = .ok (g t))
    (cS cE : Vec) (l : List (ℚ × Vec)) :
    verifyLoopE twoPi threshold sf cS cE l =
      .ok (verifyLoop twoPi threshold g cS cE l) := by
  induction l with
  | nil => rfl
  | cons p rest ih =>
    obtain ⟨t, ex⟩ := p
    simp only [verifyLoopE, verifyLoop, hg t]
    by_cases hany : npAny (checkPoint twoPi threshold (g t) cS cE ex) = true
    · rw [if_pos hany, if_pos hany]
    · rw [if_neg hany, if_neg hany, ih]

/-- C9: `verify` fails with an exception exactly when a collaborator call
fails, and the exception propagates unmodified: any `.error e` outcome is
the verbatim error of the `_simulate` call or of some `sample` call; and
when every collaborator call succeeds, the outcome is `.ok` of the pure
verification result — in particular a threshold violation never raises
and is reported only through `succeed = false`. -/
theorem verifyE_propagation {ε : Type} (twoPi : ℚ) (vE : VerifierE ε)
    (params : Option Params) :
    (∀ e, VerifierE.verify twoPi vE params = .error e →
      vE.simulate_ (params.getD []) = .error e ∨
      ∃ sf, vE.simulate_ (params.getD []) = .ok sf ∧
        ∃ t, sf t = .error e) ∧
    (∀ sf g, vE.simulate_ (params.getD []) = .ok sf →
      (∀ t, sf t = .ok (g t)) →
      VerifierE.verify twoPi vE params =
        .ok (Verifier.verify twoPi
          { simulate_ := fun _ => g
            spec_file_ := vE.spec_file_
            threshold_ := vE.threshold_ } params)) := by
  constructor
  · intro e he
    cases hsim : vE.simulate_ (params.getD []) with
    | error e' =>
      left
      have h2 : (Except.error e' : Except ε VerifierResult) = .error e := by
        rw [← he]
        simp [VerifierE.verify, hsim]
      injection h2 with h3
      rw [h3]
    | ok sf =>
      right
      refine ⟨sf, rfl, ?_⟩
      have h2 := he
      simp only [VerifierE.verify, hsim] at h2
      cases hc : sf (vE.spec_file_.time.headD 0) with
      | error e' =>
        rw [hc] at h2
        injection h2 with h3
        exact ⟨vE.spec_file_.time.headD 0, by rw [hc, h3]⟩
      | ok cS =>
        rw [hc] at h2
        exact verifyLoopE_error_source twoPi vE.threshold_ sf cS _ _ e h2
  · intro sf g hsf hg
    simp only [VerifierE.verify, hsf, hg]
    rw [verifyLoopE_refines twoPi vE.threshold_ sf g hg]
    rfl

/-! ### Construction requires the spec-file method (C10) -/

/-- C10: constructing a `Verifier` requires `configuration.method` to be
`"spec_file"`: for any other method the construction fails on the
assertion before either collaborator constructor is invoked (the outcome
does not depend on them), and when the method is `"spec_file"` the
assertion branch is unreachable and construction succeeds. -/
theorem verifier_init_requires_spec_file
    (mkSimulator : String → Bool → (Params → SampleFn))
    (mkSpec : String → SpecFile) (configuration : VerifyConfiguration) :
    (configuration.method ≠ "spec_file" →
      Verifier.init mkSimulator mkSpec configuration = .error "AssertionError" ∧
      ∀ mkSimulator' mkSpec',
        Verifier.init mkSimulator' mkSpec' configuration =
          Verifier.init mkSimulator mkSpec configuration) ∧
    (configuration.method = "spec_file" →
      Verifier.init mkSimulator mkSpec configuration =
        .ok { simulate_ := mkSimulator configuration.circuit_path
                configuration.wrspice_compatibility
              spec_file_ := mkSpec configuration.file_path
              threshold_ := configuration.threshold }) := by
  constructor
  · intro h
    constructor
    · unfold Verifier.init
      rw [if_neg h]
    · intro ms' msp'
      unfold Verifier.init
      rw [if_neg h, if_neg h]
  · intro h
    unfold Verifier.init
    rw [if_pos h]

/-! ### Closed instantiations of the theorems with hypotheses -/

/-- Witness for C1: on the concrete diverging instance the first failing
index is 2, with failure time `time()[2]` and failure point `[0]`. -/
theorem verify_first_failure_witness :
    Verifier.verify 1 vFail none =
      { succeed := false
        failure_time := some (vFail.spec_file_.time.getD 2 0)
        failure_point := some (npWhere (vFail.compAt 1 none 2)) } ∧
    (∀ s, s ∈ npWhere (vFail.compAt 1 none 2) ↔
      s < (vFail.differenceAt 1 none 2).length ∧
        vFail.threshold_ < (vFail.differenceAt 1 none 2).getD s 0) ∧
    (npWhere (vFail.compAt 1 none 2)).Pairwise (· < ·) := by
  refine verify_first_failure 1 vFail none 2 (by decide) (by decide)
    (by decide) ?_ ?_
  · refine ⟨3, ?_, by norm_num [vFail]⟩
    have h : vFail.differenceAt 1 none 2 = [3] := by
      norm_num [Verifier.differenceAt, pointDifference, vecAbs, vecSub,
        vecDiv, vFail, specFail, sampleTrace, List.getD]
    rw [h]
    simp
  · intro j h1 h2
    have hj : j = 1 := by omega
    subst hj
    have h : vFail.differenceAt 1 none 1 = [0] := by
      norm_num [Verifier.differenceAt, pointDifference, vecAbs, vecSub,
        vecDiv, vFail, specFail, sampleTrace, List.getD]
    rw [h]
    intro x hx
    simp at hx
    rw [hx]
    norm_num [vFail]

/-- Witness for C2: the concrete matching instance verifies. -/
theorem verify_succeeds_within_threshold_witness :
    (Verifier.verify 1 vPass none).succeed = true := by
  refine verify_succeeds_within_threshold 1 vPass none (by decide) ?_
  intro i h1 h2
  have h3 : vPass.spec_file_.time.length = 3 := by decide
  have : i = 1 ∨ i = 2 := by omega
  rcases this with rfl | rfl
  · have h : vPass.differenceAt 1 none 1 = [0] := by
      norm_num [Verifier.differenceAt, pointDifference, vecAbs, vecSub,
        vecDiv, vPass, specPass, sampleTrace, List.getD]
    rw [h]
    intro x hx
    simp at hx
    rw [hx]
    norm_num [vPass]
  · have h : vPass.differenceAt 1 none 2 = [0] := by
      norm_num [Verifier.differenceAt, pointDifference, vecAbs, vecSub,
        vecDiv, vPass, specPass, sampleTrace, List.getD]
    rw [h]
    intro x hx
    simp at hx
    rw [hx]
    norm_num [vPass]

/-- Witness for C3: the compared quantity at index 2, signal 0 of the
concrete diverging instance. -/
theorem verify_difference_formula_witness :
    (vFail.differenceAt 1 none 2).getD 0 0 =
      |((vFail.simulate_ (Option.getD none [])
            (vFail.spec_file_.time.getD 2 0)).getD 0 0 -
          (vFail.simulate_ (Option.getD none [])
            (vFail.spec_file_.time.getD 0 0)).getD 0 0) / 1 -
        ((vFail.spec_file_.data.getD 2 []).getD 0 0 -
          (vFail.spec_file_.data.getD 0 []).getD 0 0)| ∧
    (vFail.compAt 1 none 2).getD 0 false =
      decide (vFail.threshold_ < (vFail.differenceAt 1 none 2).getD 0 0) :=
  verify_difference_formula 1 vFail none 2 0 (by decide) (by decide)
    (by decide) (by decide)

/-- Witness for C4: a spec file of length 1 always verifies. -/
theorem verify_length_one_witness :
    (Verifier.verify 1 vOne none).succeed = true :=
  verify_length_one 1 vOne none (by decide) (by decide)

/-- Witness for C6: two verifiers with identical collaborator outputs
return the same result. -/
theorem verify_deterministic_witness :
    Verifier.verify 1 vPass none = Verifier.verify 1 vPassTwo none :=
  verify_deterministic 1 vPass vPassTwo none (fun _ _ => rfl) rfl rfl

/-- Witness for C7: on the concrete diverging instance, the failure
fields are populated with a time point of the sequence and a non-empty
index list. -/
theorem verify_result_invariant_witness :
    ∃ t pts, (Verifier.verify 1 vFail none).failure_time = some t ∧
      t ∈ vFail.spec_file_.time ∧
      (Verifier.verify 1 vFail none).failure_point = some pts ∧
      pts ≠ [] := by
  refine (verify_result_invariant 1 vFail none).2 ?_
  have h : Verifier.verify 1 vFail none =
      { succeed := false, failure_time := some 2, failure_point := some [0] } := by
    norm_num [Verifier.verify, verifyLoop, checkPoint, pointDifference,
      vecGt, vecAbs, vecSub, vecDiv, npAny, npWhere, vFail, specFail,
      sampleTrace, List.getD, List.range, List.range.loop, List.filter]
  rw [h]

/-- Witness for C9: an erroring `_simulate` call is traced back to the
collaborator, and with all collaborator calls succeeding the outcome is
`.ok` of the pure result. -/
theorem verifyE_propagation_witness :
    (vEErr.simulate_ (Option.getD none []) = .error () ∨
      ∃ sf, vEErr.simulate_ (Option.getD none []) = .ok sf ∧
        ∃ t, sf t = .error ()) ∧
    VerifierE.verify 1 vEOk none =
      .ok (Verifier.verify 1
        { simulate_ := fun _ => fun t => [t]
          spec_file_ := vEOk.spec_file_
          threshold_ := vEOk.threshold_ } none) :=
  ⟨(verifyE_propagation 1 vEErr none).1 () rfl,
   (verifyE_propagation 1 vEOk none).2 (fun t => .ok [t]) (fun t => [t])
     rfl (fun _ => rfl)⟩

/-- Witness for C10: construction fails on a non-`"spec_file"` method and
succeeds on `"spec_file"`. -/
theorem verifier_init_requires_spec_file_witness :
    Verifier.init mkSimulatorC mkSpecC cfgOther = .error "AssertionError" ∧
    Verifier.init mkSimulatorC mkSpecC cfgSpecFile =
      .ok { simulate_ := mkSimulatorC cfgSpecFile.circuit_path
              cfgSpecFile.wrspice_compatibility
            spec_file_ := mkSpecC cfgSpecFile.file_path
            threshold_ := cfgSpecFile.threshold } :=
  ⟨((verifier_init_requires_spec_file mkSimulatorC mkSpecC cfgOther).1
      (by decide)).1,
   (verifier_init_requires_spec_file mkSimulatorC mkSpecC cfgSpecFile).2 rfl⟩
